import Mathlib

/-!
Verification development for the WebRTC audio-processing orchestration
engine (`audio_processing_impl.cc`).  The engine's own control flow is
embedded shallowly; the effect components (echo cancellation, noise
suppression, ...), the audio-buffer operations and the file primitive are
external collaborators of the orchestrator and are therefore taken as
parameters (a `Components` record of processing functions over an abstract
buffer type and a `BufferOps` record of buffer transformations), exactly in
the places the engine invokes them.
-/

set_option linter.unusedVariables false

namespace WebrtcApm

/-- Error kinds of the audio-processing module (the `kNoError`,
`kNullPointerError`, ... codes checked and returned by the engine). -/
inductive ApmError where
  | kNoError
  | kNullPointerError
  | kBadParameterError
  | kBadSampleRateError
  | kBadNumberChannelsError
  | kBadDataLengthError
  | kFileError
  | kBadStreamParameterWarning
  deriving DecidableEq, Repr

/-- `static_cast<WebRtc_UWord32>` of a C `int`: reduction modulo 2^32. -/
def toUWord32 (n : Int) : Nat := (n % 4294967296).toNat

/-- One `Write`/`WriteText` call on the debug trace file.  The C++ code
writes raw host-layout bytes; each call is modelled as one typed entry
(the tag byte, the 4-byte frequency, the channel-count field, the
payload-length field, the sample payload, or a text line). -/
inductive TraceEntry where
  | u8 (b : Nat)
  | u32 (n : Nat)
  | i32 (n : Int)
  | channelCount (n : Int)
  | payloadLength (n : Int)
  | samples (data : List Int)
  | text (s : String)
  deriving DecidableEq, Repr

/-- The debug trace file (`debug_file_`): whether it is open and the
entries written so far. -/
structure DebugFile where
  isOpen : Bool
  contents : List TraceEntry
  deriving DecidableEq, Repr

/-- An `AudioFrame` as the engine reads it: `_frequencyInHz`,
`_audioChannel`, `_payloadDataLengthInSamples` and the interleaved
`_payloadData` array (which holds `_audioChannel *
_payloadDataLengthInSamples` 16-bit samples, channel-major). -/
structure AudioFrame where
  frequencyInHz : Nat
  audioChannel : Int
  payloadDataLengthInSamples : Int
  payloadData : List Int
  deriving DecidableEq, Repr

/-- The `AudioBuffer` and `SplittingFilter` operations the engine invokes,
over an abstract buffer type `β` (their internals are external to the
orchestrator).  `splittingFilterAnalysis i`/`splittingFilterSynthesis i`
act on channel `i` of the buffer, as in the per-channel loops of the
source. -/
structure BufferOps (β : Type) where
  mkBuffer : Int → Int → β
  deinterleaveFrom : AudioFrame → β → β
  mix : Int → β → β
  splittingFilterAnalysis : Nat → β → β
  splittingFilterSynthesis : Nat → β → β
  copyLowPassToReference : β → β
  interleaveTo : β → AudioFrame → AudioFrame

/-- The effect components as the engine calls them: each capture/render
processing entry returns an error code and the transformed buffer; the two
`is_enabled()` flags the engine reads; and the `Initialize()` results of
the seven components in registration order (echo cancellation, echo
control mobile, gain control, high-pass filter, level estimator, noise
suppression, voice detection). -/
structure Components (β : Type) where
  highPassFilterPC : β → ApmError × β
  gainControlAnalyzeCA : β → ApmError × β
  echoCancellationPC : β → ApmError × β
  noiseSuppressionPC : β → ApmError × β
  echoControlMobilePC : β → ApmError × β
  voiceDetectionPC : β → ApmError × β
  gainControlPC : β → ApmError × β
  echoCancellationPR : β → ApmError × β
  echoControlMobilePR : β → ApmError × β
  gainControlPR : β → ApmError × β
  echoControlMobileEnabled : Bool
  noiseSuppressionEnabled : Bool
  initErrors : List ApmError

/-- The engine state: the shared configuration fields, the two stream
buffers and the debug trace file of one `AudioProcessingImpl` instance. -/
structure Engine (β : Type) where
  sample_rate_hz : Int
  split_sample_rate_hz : Int
  samples_per_channel : Int
  stream_delay_ms : Int
  was_stream_delay_set : Bool
  num_render_input_channels : Int
  num_capture_input_channels : Int
  num_capture_output_channels : Int
  render_audio : β
  capture_audio : β
  debug_file : DebugFile

/-- The state the `AudioProcessingImpl` constructor establishes: 16 kHz,
mono everywhere, zero stream delay, delay flag clear, no trace open.  (The
constructor leaves the buffers null; `Create` runs `Initialize` at once,
which allocates them to this same configuration, so they are modelled as
allocated here.) -/
def initialState {β : Type} (ops : BufferOps β) : Engine β :=
  { sample_rate_hz := 16000
    split_sample_rate_hz := 16000
    samples_per_channel := 160
    stream_delay_ms := 0
    was_stream_delay_set := false
    num_render_input_channels := 1
    num_capture_input_channels := 1
    num_capture_output_channels := 1
    render_audio := ops.mkBuffer 1 160
    capture_audio := ops.mkBuffer 1 160
    debug_file := { isOpen := false, contents := [] } }

/-- First non-ok result of the component `Initialize()` loop (the loop
returns the first failing component's error, `kNoError` otherwise). -/
def firstInitError : List ApmError → ApmError
  | [] => .kNoError
  | e :: rest => if e ≠ .kNoError then e else firstInitError rest

/-- `InitializeLocked`: reallocates both stream buffers to the current
configuration, clears `was_stream_delay_set_`, then initializes every
component in registration order, returning the first failure. -/
def InitializeLocked {β : Type} (c : Components β) (ops : BufferOps β)
    (s : Engine β) : ApmError × Engine β :=
  (firstInitError c.initErrors,
   { s with
     render_audio := ops.mkBuffer s.num_render_input_channels s.samples_per_channel
     capture_audio := ops.mkBuffer s.num_capture_input_channels s.samples_per_channel
     was_stream_delay_set := false })

/-- `Initialize`: takes the lock and runs `InitializeLocked`. -/
def Initialize {β : Type} (c : Components β) (ops : BufferOps β)
    (s : Engine β) : ApmError × Engine β :=
  InitializeLocked c ops s

/-- `set_sample_rate_hz`: rejects a rate outside {8000, 16000, 32000};
otherwise stores the rate, derives `samples_per_channel_` and
`split_sample_rate_hz_`, and reinitializes. -/
def set_sample_rate_hz {β : Type} (c : Components β) (ops : BufferOps β)
    (rate : Int) (s : Engine β) : ApmError × Engine β :=
  if rate ≠ 8000 ∧ rate ≠ 16000 ∧ rate ≠ 32000 then
    (.kBadParameterError, s)
  else
    InitializeLocked c ops
      { s with
        sample_rate_hz := rate
        samples_per_channel := rate / 100
        split_sample_rate_hz := if rate = 32000 then 16000 else rate }

/-- `set_num_reverse_channels`: rejects a channel count outside {1, 2};
otherwise stores it and reinitializes. -/
def set_num_reverse_channels {β : Type} (c : Components β) (ops : BufferOps β)
    (channels : Int) (s : Engine β) : ApmError × Engine β :=
  if channels > 2 ∨ channels < 1 then
    (.kBadParameterError, s)
  else
    InitializeLocked c ops { s with num_render_input_channels := channels }

/-- `set_num_channels`: rejects `output_channels > input_channels` or
either count outside {1, 2}; otherwise stores both and reinitializes. -/
def set_num_channels {β : Type} (c : Components β) (ops : BufferOps β)
    (input_channels output_channels : Int) (s : Engine β) :
    ApmError × Engine β :=
  if output_channels > input_channels then
    (.kBadParameterError, s)
  else if input_channels > 2 ∨ input_channels < 1 then
    (.kBadParameterError, s)
  else if output_channels > 2 ∨ output_channels < 1 then
    (.kBadParameterError, s)
  else
    InitializeLocked c ops
      { s with
        num_capture_input_channels := input_channels
        num_capture_output_channels := output_channels }

/-- `set_stream_delay_ms`: sets `was_stream_delay_set_` first, then rejects
a negative delay, clamps a delay over 500 to 500 with a warning, and
stores an in-range delay with success. -/
def set_stream_delay_ms {β : Type} (delay : Int) (s : Engine β) :
    ApmError × Engine β :=
  let s1 := { s with was_stream_delay_set := true }
  if delay < 0 then
    (.kBadParameterError, s1)
  else if delay > 500 then
    (.kBadStreamParameterWarning, { s1 with stream_delay_ms := 500 })
  else
    (.kNoError, { s1 with stream_delay_ms := delay })

/-- One `FileWrapper::Write` call on an open trace file: `ok` is the
outcome the file primitive reports; on success the entry is appended. -/
def dfWrite (ok : Bool) (e : TraceEntry) (df : DebugFile) : Bool × DebugFile :=
  if ok then (true, { df with contents := df.contents ++ [e] }) else (false, df)

/-- The `if (debug_file_->Open()) { ... }` block of the two stream calls:
when the trace is open, writes the event tag, frequency, channel count,
payload length and payload in five `Write` calls (outcomes `w1`..`w5`),
stopping at the first failure; when closed, does nothing and reports
success. -/
def writeEventRecord (tag : Nat) (fr : AudioFrame)
    (w1 w2 w3 w4 w5 : Bool) (df : DebugFile) : Bool × DebugFile :=
  if df.isOpen then
    match dfWrite w1 (.u8 tag) df with
    | (false, d) => (false, d)
    | (true, d1) =>
      match dfWrite w2 (.u32 fr.frequencyInHz) d1 with
      | (false, d) => (false, d)
      | (true, d2) =>
        match dfWrite w3 (.channelCount fr.audioChannel) d2 with
        | (false, d) => (false, d)
        | (true, d3) =>
          match dfWrite w4 (.payloadLength fr.payloadDataLengthInSamples) d3 with
          | (false, d) => (false, d)
          | (true, d4) =>
            dfWrite w5 (.samples fr.payloadData) d4
  else (true, df)

/-- The pipeline stages of the two stream calls, for execution traces. -/
inductive Stage where
  | highPassFilter
  | gainControlAnalyze
  | echoCancellation
  | copyLowPassToReference
  | noiseSuppression
  | echoControlMobile
  | voiceDetection
  | gainControlApply
  | echoCancellationRender
  | echoControlMobileRender
  | gainControlRender
  deriving DecidableEq, Repr

/-- The capture component chain of `ProcessStream`, straight-line as in
the source: high-pass filter, gain-control analyze, echo cancellation,
the conditional `CopyLowPassToReference` snapshot (when both mobile echo
control and noise suppression are enabled), noise suppression, mobile
echo control, voice detection, gain-control apply — each stage returning
early with its error when non-ok.  Besides the error and the buffer, the
list of stages actually executed is produced. -/
def captureStagesImpl {β : Type} (c : Components β) (ops : BufferOps β)
    (b : β) : ApmError × β × List Stage :=
  match c.highPassFilterPC b with
  | (e1, b1) =>
  if e1 ≠ .kNoError then (e1, b1, [.highPassFilter]) else
  match c.gainControlAnalyzeCA b1 with
  | (e2, b2) =>
  if e2 ≠ .kNoError then (e2, b2, [.highPassFilter, .gainControlAnalyze]) else
  match c.echoCancellationPC b2 with
  | (e3, b3) =>
  if e3 ≠ .kNoError then
    (e3, b3, [.highPassFilter, .gainControlAnalyze, .echoCancellation])
  else
  let doCopy := c.echoControlMobileEnabled && c.noiseSuppressionEnabled
  let b3c := if doCopy then ops.copyLowPassToReference b3 else b3
  let copyTrace : List Stage := if doCopy then [.copyLowPassToReference] else []
  match c.noiseSuppressionPC b3c with
  | (e4, b4) =>
  if e4 ≠ .kNoError then
    (e4, b4, [.highPassFilter, .gainControlAnalyze, .echoCancellation]
      ++ copyTrace ++ [.noiseSuppression])
  else
  match c.echoControlMobilePC b4 with
  | (e5, b5) =>
  if e5 ≠ .kNoError then
    (e5, b5, [.highPassFilter, .gainControlAnalyze, .echoCancellation]
      ++ copyTrace ++ [.noiseSuppression, .echoControlMobile])
  else
  match c.voiceDetectionPC b5 with
  | (e6, b6) =>
  if e6 ≠ .kNoError then
    (e6, b6, [.highPassFilter, .gainControlAnalyze, .echoCancellation]
      ++ copyTrace ++ [.noiseSuppression, .echoControlMobile, .voiceDetection])
  else
  match c.gainControlPC b6 with
  | (e7, b7) =>
  if e7 ≠ .kNoError then
    (e7, b7, [.highPassFilter, .gainControlAnalyze, .echoCancellation]
      ++ copyTrace
      ++ [.noiseSuppression, .echoControlMobile, .voiceDetection, .gainControlApply])
  else
    (.kNoError, b7, [.highPassFilter, .gainControlAnalyze, .echoCancellation]
      ++ copyTrace
      ++ [.noiseSuppression, .echoControlMobile, .voiceDetection, .gainControlApply])

/-- The render component chain of `AnalyzeReverseStream`, straight-line as
in the source: echo-cancellation render, mobile-echo-control render,
gain-control render, returning early on the first non-ok result. -/
def renderStagesImpl {β : Type} (c : Components β) (b : β) :
    ApmError × β × List Stage :=
  match c.echoCancellationPR b with
  | (e1, b1) =>
  if e1 ≠ .kNoError then (e1, b1, [.echoCancellationRender]) else
  match c.echoControlMobilePR b1 with
  | (e2, b2) =>
  if e2 ≠ .kNoError then (e2, b2, [.echoCancellationRender, .echoControlMobileRender]) else
  match c.gainControlPR b2 with
  | (e3, b3) =>
  if e3 ≠ .kNoError then
    (e3, b3, [.echoCancellationRender, .echoControlMobileRender, .gainControlRender])
  else
    (.kNoError, b3,
     [.echoCancellationRender, .echoControlMobileRender, .gainControlRender])

/-- `ProcessStream`: null and configuration validation, the optional
capture trace record, deinterleave, conditional downmix (also rewriting
the frame's channel count), conditional sub-band analysis per input
channel, the capture component chain, conditional sub-band synthesis per
output channel, and reinterleave.  Returns the error code, the engine
state, the (possibly rewritten) frame, and the stages executed. -/
def ProcessStream {β : Type} (c : Components β) (ops : BufferOps β)
    (w1 w2 w3 w4 w5 : Bool) (s : Engine β) (frame : Option AudioFrame) :
    ApmError × Engine β × Option AudioFrame × List Stage :=
  match frame with
  | none => (.kNullPointerError, s, none, [])
  | some fr =>
    if fr.frequencyInHz ≠ toUWord32 s.sample_rate_hz then
      (.kBadSampleRateError, s, some fr, [])
    else if fr.audioChannel ≠ s.num_capture_input_channels then
      (.kBadNumberChannelsError, s, some fr, [])
    else if fr.payloadDataLengthInSamples ≠ s.samples_per_channel then
      (.kBadDataLengthError, s, some fr, [])
    else
      match writeEventRecord 2 fr w1 w2 w3 w4 w5 s.debug_file with
      | (false, df) => (.kFileError, { s with debug_file := df }, some fr, [])
      | (true, df) =>
        let s1 := { s with debug_file := df }
        let b0 := ops.deinterleaveFrom fr s1.capture_audio
        let mixed := s.num_capture_output_channels < s.num_capture_input_channels
        let b1 := if mixed then ops.mix s.num_capture_output_channels b0 else b0
        let fr1 := if mixed then { fr with audioChannel := s.num_capture_output_channels }
                   else fr
        let b2 :=
          if s.sample_rate_hz = 32000 then
            (List.range s.num_capture_input_channels.toNat).foldl
              (fun b i => ops.splittingFilterAnalysis i b) b1
          else b1
        match captureStagesImpl c ops b2 with
        | (e, b3, tr) =>
          if e = .kNoError then
            let b4 :=
              if s.sample_rate_hz = 32000 then
                (List.range s.num_capture_output_channels.toNat).foldl
                  (fun b i => ops.splittingFilterSynthesis i b) b3
              else b3
            let fr2 := ops.interleaveTo b4 fr1
            (.kNoError, { s1 with capture_audio := b4 }, some fr2, tr)
          else
            (e, { s1 with capture_audio := b3 }, some fr1, tr)

/-- `AnalyzeReverseStream`: null and configuration validation (against the
render channel count), the optional render trace record, deinterleave,
conditional sub-band analysis per render channel, the render component
chain, and — only when every stage succeeded — clearing
`was_stream_delay_set_`.  The frame itself is never written back. -/
def AnalyzeReverseStream {β : Type} (c : Components β) (ops : BufferOps β)
    (w1 w2 w3 w4 w5 : Bool) (s : Engine β) (frame : Option AudioFrame) :
    ApmError × Engine β × Option AudioFrame × List Stage :=
  match frame with
  | none => (.kNullPointerError, s, none, [])
  | some fr =>
    if fr.frequencyInHz ≠ toUWord32 s.sample_rate_hz then
      (.kBadSampleRateError, s, some fr, [])
    else if fr.audioChannel ≠ s.num_render_input_channels then
      (.kBadNumberChannelsError, s, some fr, [])
    else if fr.payloadDataLengthInSamples ≠ s.samples_per_channel then
      (.kBadDataLengthError, s, some fr, [])
    else
      match writeEventRecord 1 fr w1 w2 w3 w4 w5 s.debug_file with
      | (false, df) => (.kFileError, { s with debug_file := df }, some fr, [])
      | (true, df) =>
        let s1 := { s with debug_file := df }
        let b0 := ops.deinterleaveFrom fr s1.render_audio
        let b1 :=
          if s.sample_rate_hz = 32000 then
            (List.range s.num_render_input_channels.toNat).foldl
              (fun b i => ops.splittingFilterAnalysis i b) b0
          else b0
        match renderStagesImpl c b1 with
        | (e, b2, tr) =>
          if e = .kNoError then
            (e, { s1 with render_audio := b2, was_stream_delay_set := false },
             some fr, tr)
          else
            (e, { s1 with render_audio := b2 }, some fr, tr)

/-- The literal magic text at the head of a debug trace file. -/
def kMagicNumber : String := "#!vqetrace1.2"

/-- `StartDebugRecording(filename)`: rejects a null filename; closes an
already-open trace (`closeOk` is that `CloseFile`'s outcome); opens the
new file (`openOk`), closing again on failure; writes the magic line with
a trailing newline (`textOk`), closing on failure; then writes the
Initialize event tag and the current sample rate in two `Write` calls
(`w1`, `w2`), each failure reported as a file error (with the file left
open).  A freshly opened file starts empty. -/
def StartDebugRecording {β : Type} (filename : Option String)
    (closeOk openOk textOk w1 w2 : Bool) (s : Engine β) :
    ApmError × Engine β :=
  match filename with
  | none => (.kNullPointerError, s)
  | some _ =>
    if s.debug_file.isOpen ∧ closeOk = false then
      (.kFileError, s)
    else
      if openOk = false then
        (.kFileError, { s with debug_file := { isOpen := false, contents := [] } })
      else
        let df0 : DebugFile := { isOpen := true, contents := [] }
        if textOk = false then
          (.kFileError, { s with debug_file := { df0 with isOpen := false } })
        else
          match dfWrite w1 (.u8 0) { df0 with contents := [.text (kMagicNumber ++ "\n")] } with
          | (false, d) => (.kFileError, { s with debug_file := d })
          | (true, d1) =>
            match dfWrite w2 (.i32 s.sample_rate_hz) d1 with
            | (false, d) => (.kFileError, { s with debug_file := d })
            | (true, d2) => (.kNoError, { s with debug_file := d2 })

/-- `StopDebugRecording`: closes the trace when one is open (`closeOk` the
outcome of that `CloseFile`), a no-op otherwise. -/
def StopDebugRecording {β : Type} (closeOk : Bool) (s : Engine β) :
    ApmError × Engine β :=
  if s.debug_file.isOpen then
    if closeOk = false then (.kFileError, s)
    else (.kNoError, { s with debug_file := { s.debug_file with isOpen := false } })
  else (.kNoError, s)

/-- `memset(&version[position], 0, bytes_remaining)`: the version buffer
as a byte map, zeroed over `[position, position + len)`. -/
def memsetZero (buf : Nat → Nat) (position len : Nat) : Nat → Nat :=
  fun i => if position ≤ i ∧ i < position + len then 0 else buf i

/-- `memcpy(&version[position], str, strlen(str))`: the bytes of `str`
written at `position`. -/
def memcpyStr (buf : Nat → Nat) (position : Nat) (str : String) : Nat → Nat :=
  fun i =>
    if position ≤ i ∧ i < position + str.length then
      ((str.toList.getD (i - position) (Char.ofNat 0))).toNat
    else buf i

/-- The engine version string `Version` writes first (`my_version`). -/
def myVersionStr : String := "AudioProcessing 1.0.0"

/-- The component loop of `Version`: each component's `get_version` result
is either an error (returned as is) or a string; an empty string is
skipped; otherwise the newline-prefixed string must fit in the remaining
capacity (else `kBadParameterError`) and is copied at the current
position, advancing `position` and consuming `bytes_remaining`. -/
def versionComponentLoop : List (ApmError ⊕ String) → (Nat → Nat) → Nat → Nat →
    ApmError × (Nat → Nat) × Nat × Nat
  | [], buf, bytes_remaining, position => (.kNoError, buf, bytes_remaining, position)
  | Sum.inl e :: _, buf, bytes_remaining, position => (e, buf, bytes_remaining, position)
  | Sum.inr v :: rest, buf, bytes_remaining, position =>
    if v = "" then versionComponentLoop rest buf bytes_remaining position
    else
      let withNewline := "\n" ++ v
      if bytes_remaining < withNewline.length then
        (.kBadParameterError, buf, bytes_remaining, position)
      else
        versionComponentLoop rest (memcpyStr buf position withNewline)
          (bytes_remaining - withNewline.length) (position + withNewline.length)

/-- `Version(version, bytes_remaining, position)`: rejects a null buffer;
otherwise first zeroes `bytes_remaining` bytes at `position`, then checks
capacity for and copies the engine version string, then runs the
component loop (`componentVersions` being each component's `get_version`
outcome in registration order).  Returns the error code, the buffer, and
the updated `bytes_remaining` and `position` reference parameters. -/
def Version (version : Option (Nat → Nat)) (bytes_remaining position : Nat)
    (componentVersions : List (ApmError ⊕ String)) :
    ApmError × Option (Nat → Nat) × Nat × Nat :=
  match version with
  | none => (.kNullPointerError, none, bytes_remaining, position)
  | some buf =>
    let buf0 := memsetZero buf position bytes_remaining
    if bytes_remaining < myVersionStr.length then
      (.kBadParameterError, some buf0, bytes_remaining, position)
    else
      let r := versionComponentLoop componentVersions
        (memcpyStr buf0 position myVersionStr)
        (bytes_remaining - myVersionStr.length)
        (position + myVersionStr.length)
      (r.1, some r.2.1, r.2.2.1, r.2.2.2)

/-- The public operations of `AudioProcessingImpl` as defined in the
source file (the constructor and destructor aside). -/
inductive PublicOp where
  | initializeOp
  | setSampleRateHz
  | sampleRateHz
  | splitSampleRateHz
  | setNumReverseChannels
  | numReverseChannels
  | setNumChannels
  | numInputChannels
  | numOutputChannels
  | processStream
  | analyzeReverseStream
  | setStreamDelayMs
  | streamDelayMs
  | wasStreamDelaySet
  | startDebugRecording
  | stopDebugRecording
  | echoCancellationAccessor
  | echoControlMobileAccessor
  | gainControlAccessor
  | highPassFilterAccessor
  | levelEstimatorAccessor
  | noiseSuppressionAccessor
  | voiceDetectionAccessor
  | version
  | changeUniqueId
  | critAccessor
  deriving DecidableEq, Repr

/-- Whether the body of each public operation acquires the per-instance
critical section (opens with `CriticalSectionScoped crit_scoped(*crit_)`),
transcribed operation by operation from the source file. -/
def acquiresCrit : PublicOp → Bool
  | .initializeOp => true
  | .setSampleRateHz => true
  | .sampleRateHz => false
  | .splitSampleRateHz => false
  | .setNumReverseChannels => true
  | .numReverseChannels => false
  | .setNumChannels => true
  | .numInputChannels => false
  | .numOutputChannels => false
  | .processStream => true
  | .analyzeReverseStream => true
  | .setStreamDelayMs => false
  | .streamDelayMs => false
  | .wasStreamDelaySet => false
  | .startDebugRecording => true
  | .stopDebugRecording => true
  | .echoCancellationAccessor => false
  | .echoControlMobileAccessor => false
  | .gainControlAccessor => false
  | .highPassFilterAccessor => false
  | .levelEstimatorAccessor => false
  | .noiseSuppressionAccessor => false
  | .voiceDetectionAccessor => false
  | .version => false
  | .changeUniqueId => true
  | .critAccessor => false

/-- One step of the run-in-order specification: a component stage with its
error-returning processing function, or the infallible
`CopyLowPassToReference` snapshot. -/
inductive StageAction (β : Type) where
  | comp (tag : Stage) (f : β → ApmError × β)
  | copy (tag : Stage) (f : β → β)

/-- Run stages in the given order, short-circuiting on the first non-ok
component result and skipping all later stages; the first non-ok result is
returned, `kNoError` when every stage succeeds. -/
def runStages {β : Type} : List (StageAction β) → β → ApmError × β × List Stage
  | [], b => (.kNoError, b, [])
  | StageAction.copy t f :: rest, b =>
    let r := runStages rest (f b)
    (r.1, r.2.1, t :: r.2.2)
  | StageAction.comp t f :: rest, b =>
    match f b with
    | (e, b1) =>
      if e = .kNoError then
        let r := runStages rest b1
        (r.1, r.2.1, t :: r.2.2)
      else (e, b1, [t])

/-- The capture pipeline order exactly as the claim states it: high-pass
filter, gain-control analyze, echo cancellation, then — only when both
mobile echo control and noise suppression are enabled —
`CopyLowPassToReference`, then noise suppression, mobile echo control,
voice detection, gain-control apply. -/
def captureStageList {β : Type} (c : Components β) (ops : BufferOps β) :
    List (StageAction β) :=
  [StageAction.comp .highPassFilter c.highPassFilterPC,
   StageAction.comp .gainControlAnalyze c.gainControlAnalyzeCA,
   StageAction.comp .echoCancellation c.echoCancellationPC]
  ++ (if c.echoControlMobileEnabled && c.noiseSuppressionEnabled then
        [StageAction.copy .copyLowPassToReference ops.copyLowPassToReference]
      else [])
  ++ [StageAction.comp .noiseSuppression c.noiseSuppressionPC,
      StageAction.comp .echoControlMobile c.echoControlMobilePC,
      StageAction.comp .voiceDetection c.voiceDetectionPC,
      StageAction.comp .gainControlApply c.gainControlPC]

/-- Trivial buffer operations over the unit buffer type, for concrete
evaluations. -/
def unitOps : BufferOps Unit :=
  { mkBuffer := fun _ _ => ()
    deinterleaveFrom := fun _ b => b
    mix := fun _ b => b
    splittingFilterAnalysis := fun _ b => b
    splittingFilterSynthesis := fun _ b => b
    copyLowPassToReference := fun b => b
    interleaveTo := fun _ fr => fr }

/-- Components over the unit buffer type that all succeed, with both
enabled flags clear, for concrete evaluations. -/
def okComponents : Components Unit :=
  { highPassFilterPC := fun b => (.kNoError, b)
    gainControlAnalyzeCA := fun b => (.kNoError, b)
    echoCancellationPC := fun b => (.kNoError, b)
    noiseSuppressionPC := fun b => (.kNoError, b)
    echoControlMobilePC := fun b => (.kNoError, b)
    voiceDetectionPC := fun b => (.kNoError, b)
    gainControlPC := fun b => (.kNoError, b)
    echoCancellationPR := fun b => (.kNoError, b)
    echoControlMobilePR := fun b => (.kNoError, b)
    gainControlPR := fun b => (.kNoError, b)
    echoControlMobileEnabled := false
    noiseSuppressionEnabled := false
    initErrors := [.kNoError, .kNoError, .kNoError, .kNoError, .kNoError,
                   .kNoError, .kNoError] }

/-- The constructor state over the unit buffer type. -/
def e0 : Engine Unit := initialState unitOps

/-- A well-formed mono 16 kHz frame matching the constructor state. -/
def fr0 : AudioFrame :=
  { frequencyInHz := 16000
    audioChannel := 1
    payloadDataLengthInSamples := 160
    payloadData := List.replicate 160 7 }

/-- C3: `set_stream_delay_ms(delay)` sets `was_stream_delay_set` to true
regardless of outcome; a negative delay returns `kBadParameterError` with
the stored delay unchanged; a delay over 500 stores 500 and returns
`kBadStreamParameterWarning`; otherwise the delay is stored and
`kNoError` returned. -/
theorem setStreamDelayMs_spec {β : Type} (s : Engine β) (delay : Int) :
    ((set_stream_delay_ms delay s).2.was_stream_delay_set = true) ∧
    (delay < 0 →
      set_stream_delay_ms delay s =
        (.kBadParameterError, { s with was_stream_delay_set := true })) ∧
    (delay > 500 →
      set_stream_delay_ms delay s =
        (.kBadStreamParameterWarning,
         { s with was_stream_delay_set := true, stream_delay_ms := 500 })) ∧
    (0 ≤ delay → delay ≤ 500 →
      set_stream_delay_ms delay s =
        (.kNoError,
         { s with was_stream_delay_set := true, stream_delay_ms := delay })) := by
  simp only [set_stream_delay_ms]
  refine ⟨?_, ?_, ?_, ?_⟩
  · split_ifs <;> rfl
  · intro h
    rw [if_pos h]
  · intro h
    rw [if_neg (by omega), if_pos h]
  · intro h1 h2
    rw [if_neg (by omega), if_neg (by omega)]

/-- C5: every rejected configuration change — a sample rate outside
{8000, 16000, 32000}, capture channels outside {1, 2} or with more
outputs than inputs, reverse channels outside {1, 2} — returns
`kBadParameterError` and leaves the whole engine state (in particular
`sample_rate_hz`, `split_sample_rate_hz`, `samples_per_channel` and all
channel counts) unchanged. -/
theorem rejectedConfig_spec {β : Type} (c : Components β) (ops : BufferOps β)
    (s : Engine β) :
    (∀ rate : Int, ¬(rate = 8000 ∨ rate = 16000 ∨ rate = 32000) →
      set_sample_rate_hz c ops rate s = (.kBadParameterError, s)) ∧
    (∀ input_channels output_channels : Int,
      (output_channels > input_channels ∨
       input_channels > 2 ∨ input_channels < 1 ∨
       output_channels > 2 ∨ output_channels < 1) →
      set_num_channels c ops input_channels output_channels s =
        (.kBadParameterError, s)) ∧
    (∀ channels : Int, (channels > 2 ∨ channels < 1) →
      set_num_reverse_channels c ops channels s = (.kBadParameterError, s)) := by
  refine ⟨?_, ?_, ?_⟩
  · intro rate h
    rw [set_sample_rate_hz, if_pos (by tauto)]
  · intro i o h
    rw [set_num_channels]
    rcases h with h | h | h | h | h
    · rw [if_pos h]
    · rw [show (if o > i then ((ApmError.kBadParameterError, s) : ApmError × Engine β)
          else if i > 2 ∨ i < 1 then (ApmError.kBadParameterError, s)
          else if o > 2 ∨ o < 1 then (ApmError.kBadParameterError, s)
          else InitializeLocked c ops
            { s with num_capture_input_channels := i,
                     num_capture_output_channels := o }) =
          (if o > i then ((ApmError.kBadParameterError, s) : ApmError × Engine β)
          else (ApmError.kBadParameterError, s)) from by
        rw [if_pos (Or.inl h)]]
      split_ifs <;> rfl
    · split_ifs with h1 h2 <;> first | rfl | exact absurd h (by omega)
    · split_ifs with h1 h2 h3 <;> first | rfl | exact absurd h3 (by omega)
    · split_ifs with h1 h2 h3 <;> first | rfl | exact absurd h3 (by omega)
  · intro n h
    rw [set_num_reverse_channels, if_pos h]

/-- C6: after every accepted `set_sample_rate_hz(rate)` call,
`sample_rate_hz` is `rate`, `samples_per_channel` is `rate / 100`, and
`split_sample_rate_hz` is 16000 when the rate is 32000 and the rate
itself otherwise. -/
theorem acceptedSampleRate_spec {β : Type} (c : Components β)
    (ops : BufferOps β) (rate : Int) (s : Engine β)
    (h : rate = 8000 ∨ rate = 16000 ∨ rate = 32000) :
    (set_sample_rate_hz c ops rate s).2.sample_rate_hz = rate ∧
    (set_sample_rate_hz c ops rate s).2.samples_per_channel = rate / 100 ∧
    (set_sample_rate_hz c ops rate s).2.split_sample_rate_hz =
      (if rate = 32000 then 16000 else rate) := by
  rw [set_sample_rate_hz, if_neg (by tauto)]
  exact ⟨rfl, rfl, rfl⟩

/-- Witness for C6 at the concrete rate 32000 on the constructor state. -/
theorem acceptedSampleRate_spec_witness :
    (set_sample_rate_hz okComponents unitOps 32000 e0).2.sample_rate_hz = 32000 ∧
    (set_sample_rate_hz okComponents unitOps 32000 e0).2.samples_per_channel = 320 ∧
    (set_sample_rate_hz okComponents unitOps 32000 e0).2.split_sample_rate_hz = 16000 := by
  have h := acceptedSampleRate_spec okComponents unitOps 32000 e0
    (Or.inr (Or.inr rfl))
  refine ⟨h.1, ?_, ?_⟩
  · rw [h.2.1]
    norm_num
  · rw [h.2.2]
    norm_num

/-- C2: `ProcessStream` and `AnalyzeReverseStream` reject a null frame
with `kNullPointerError` and a frame whose rate, channel count or payload
length differs from the current configuration with `kBadSampleRateError`,
`kBadNumberChannelsError` or `kBadDataLengthError` respectively, checked
in that order, returning the engine state, the frame and an empty
execution trace unchanged (so neither the frame nor any engine state —
buffers, configuration, `was_stream_delay_set`, trace file — is
mutated). -/
theorem streamValidation_spec {β : Type} (c : Components β) (ops : BufferOps β)
    (w1 w2 w3 w4 w5 : Bool) (s : Engine β) :
    (ProcessStream c ops w1 w2 w3 w4 w5 s none = (.kNullPointerError, s, none, [])) ∧
    (∀ fr : AudioFrame, fr.frequencyInHz ≠ toUWord32 s.sample_rate_hz →
      ProcessStream c ops w1 w2 w3 w4 w5 s (some fr) =
        (.kBadSampleRateError, s, some fr, [])) ∧
    (∀ fr : AudioFrame, fr.frequencyInHz = toUWord32 s.sample_rate_hz →
      fr.audioChannel ≠ s.num_capture_input_channels →
      ProcessStream c ops w1 w2 w3 w4 w5 s (some fr) =
        (.kBadNumberChannelsError, s, some fr, [])) ∧
    (∀ fr : AudioFrame, fr.frequencyInHz = toUWord32 s.sample_rate_hz →
      fr.audioChannel = s.num_capture_input_channels →
      fr.payloadDataLengthInSamples ≠ s.samples_per_channel →
      ProcessStream c ops w1 w2 w3 w4 w5 s (some fr) =
        (.kBadDataLengthError, s, some fr, [])) ∧
    (AnalyzeReverseStream c ops w1 w2 w3 w4 w5 s none =
      (.kNullPointerError, s, none, [])) ∧
    (∀ fr : AudioFrame, fr.frequencyInHz ≠ toUWord32 s.sample_rate_hz →
      AnalyzeReverseStream c ops w1 w2 w3 w4 w5 s (some fr) =
        (.kBadSampleRateError, s, some fr, [])) ∧
    (∀ fr : AudioFrame, fr.frequencyInHz = toUWord32 s.sample_rate_hz →
      fr.audioChannel ≠ s.num_render_input_channels →
      AnalyzeReverseStream c ops w1 w2 w3 w4 w5 s (some fr) =
        (.kBadNumberChannelsError, s, some fr, [])) ∧
    (∀ fr : AudioFrame, fr.frequencyInHz = toUWord32 s.sample_rate_hz →
      fr.audioChannel = s.num_render_input_channels →
      fr.payloadDataLengthInSamples ≠ s.samples_per_channel →
      AnalyzeReverseStream c ops w1 w2 w3 w4 w5 s (some fr) =
        (.kBadDataLengthError, s, some fr, [])) := by
  refine ⟨rfl, ?_, ?_, ?_, rfl, ?_, ?_, ?_⟩
  · intro fr h
    rw [ProcessStream, if_pos h]
  · intro fr h1 h2
    rw [ProcessStream, if_neg (by simp [h1]), if_pos h2]
  · intro fr h1 h2 h3
    rw [ProcessStream, if_neg (by simp [h1]), if_neg (by simp [h2]), if_pos h3]
  · intro fr h
    rw [AnalyzeReverseStream, if_pos h]
  · intro fr h1 h2
    rw [AnalyzeReverseStream, if_neg (by simp [h1]), if_pos h2]
  · intro fr h1 h2 h3
    rw [AnalyzeReverseStream, if_neg (by simp [h1]), if_neg (by simp [h2]),
      if_pos h3]

/-- Case analysis of `AnalyzeReverseStream`: a successful call clears
`was_stream_delay_set`; an unsuccessful one leaves it as it was. -/
theorem ars_wasStreamDelaySet_cases {β : Type} (c : Components β)
    (ops : BufferOps β) (w1 w2 w3 w4 w5 : Bool) (s : Engine β)
    (frame : Option AudioFrame) :
    ((AnalyzeReverseStream c ops w1 w2 w3 w4 w5 s frame).1 = .kNoError ∧
      (AnalyzeReverseStream c ops w1 w2 w3 w4 w5 s frame).2.1.was_stream_delay_set
        = false) ∨
    ((AnalyzeReverseStream c ops w1 w2 w3 w4 w5 s frame).1 ≠ .kNoError ∧
      (AnalyzeReverseStream c ops w1 w2 w3 w4 w5 s frame).2.1.was_stream_delay_set
        = s.was_stream_delay_set) := by
  cases frame with
  | none => right; exact ⟨by simp [AnalyzeReverseStream], rfl⟩
  | some fr =>
    rw [AnalyzeReverseStream]
    split_ifs <;>
      first
        | (right; exact ⟨by simp, rfl⟩)
        | (split
           · right; exact ⟨by simp, rfl⟩
           · dsimp only
             split
             · left; exact ⟨by assumption, rfl⟩
             · right; exact ⟨by assumption, rfl⟩)

/-- C4 (corrected): `was_stream_delay_set()` becomes true after any
`set_stream_delay_ms` call regardless of its outcome, and becomes false
after a successful `AnalyzeReverseStream` call (a failed one leaves it
unchanged) — but also after any reinitialization (`InitializeLocked`,
reached by `Initialize` and by every accepted configuration change),
which likewise clears it. -/
theorem wasStreamDelaySet_amended {β : Type} (c : Components β)
    (ops : BufferOps β) (w1 w2 w3 w4 w5 : Bool) (s : Engine β) :
    (∀ delay : Int,
      (set_stream_delay_ms delay s).2.was_stream_delay_set = true) ∧
    ((InitializeLocked c ops s).2.was_stream_delay_set = false) ∧
    (∀ frame : Option AudioFrame,
      (AnalyzeReverseStream c ops w1 w2 w3 w4 w5 s frame).1 = .kNoError →
      (AnalyzeReverseStream c ops w1 w2 w3 w4 w5 s frame).2.1.was_stream_delay_set
        = false) ∧
    (∀ frame : Option AudioFrame,
      (AnalyzeReverseStream c ops w1 w2 w3 w4 w5 s frame).1 ≠ .kNoError →
      (AnalyzeReverseStream c ops w1 w2 w3 w4 w5 s frame).2.1.was_stream_delay_set
        = s.was_stream_delay_set) := by
  refine ⟨?_, rfl, ?_, ?_⟩
  · intro delay
    simp only [set_stream_delay_ms]
    split_ifs <;> rfl
  · intro frame h
    rcases ars_wasStreamDelaySet_cases c ops w1 w2 w3 w4 w5 s frame with
      ⟨_, hf⟩ | ⟨hne, _⟩
    · exact hf
    · exact absurd h hne
  · intro frame h
    rcases ars_wasStreamDelaySet_cases c ops w1 w2 w3 w4 w5 s frame with
      ⟨hok, _⟩ | ⟨_, hf⟩
    · exact absurd hok h
    · exact hf

/-- C4's counterexample: on the constructor state, `set_stream_delay_ms`
sets the flag; a following accepted `set_sample_rate_hz(8000)` — not an
`AnalyzeReverseStream` call — clears it, so the flag does not become
false exactly after successful `AnalyzeReverseStream` calls. -/
theorem wasStreamDelaySet_cex :
    ((set_stream_delay_ms 10 e0).2.was_stream_delay_set = true) ∧
    ((set_sample_rate_hz okComponents unitOps 8000
        (set_stream_delay_ms 10 e0).2).1 = ApmError.kNoError) ∧
    ((set_sample_rate_hz okComponents unitOps 8000
        (set_stream_delay_ms 10 e0).2).2.was_stream_delay_set = false) :=
  ⟨rfl, rfl, rfl⟩

/-- C1: the capture component chain of `ProcessStream` (run after frame
validation, tracing, deinterleaving, downmix and band splitting) equals
running the claimed fixed stage order — high-pass filter, gain-control
analyze, echo cancellation, then `CopyLowPassToReference` only when both
mobile echo control and noise suppression are enabled, then noise
suppression, mobile echo control, voice detection, gain-control apply —
short-circuiting on the first non-ok component result, returning it and
skipping all later stages. -/
theorem captureOrder_spec {β : Type} (c : Components β) (ops : BufferOps β)
    (b : β) :
    captureStagesImpl c ops b = runStages (captureStageList c ops) b := by
  rcases h1 : c.highPassFilterPC b with ⟨e1, b1⟩
  by_cases he1 : e1 = ApmError.kNoError
  swap
  · simp [captureStagesImpl, captureStageList, runStages, h1, he1]
  subst he1
  rcases h2 : c.gainControlAnalyzeCA b1 with ⟨e2, b2⟩
  by_cases he2 : e2 = ApmError.kNoError
  swap
  · simp [captureStagesImpl, captureStageList, runStages, h1, h2, he2]
  subst he2
  rcases h3 : c.echoCancellationPC b2 with ⟨e3, b3⟩
  by_cases he3 : e3 = ApmError.kNoError
  swap
  · simp [captureStagesImpl, captureStageList, runStages, h1, h2, h3, he3]
  subst he3
  by_cases hcopy : (c.echoControlMobileEnabled && c.noiseSuppressionEnabled) = true
  · rcases h4 : c.noiseSuppressionPC (ops.copyLowPassToReference b3) with ⟨e4, b4⟩
    by_cases he4 : e4 = ApmError.kNoError
    swap
    · simp [captureStagesImpl, captureStageList, runStages, h1, h2, h3, h4,
        hcopy, he4]
    subst he4
    rcases h5 : c.echoControlMobilePC b4 with ⟨e5, b5⟩
    by_cases he5 : e5 = ApmError.kNoError
    swap
    · simp [captureStagesImpl, captureStageList, runStages, h1, h2, h3, h4, h5,
        hcopy, he5]
    subst he5
    rcases h6 : c.voiceDetectionPC b5 with ⟨e6, b6⟩
    by_cases he6 : e6 = ApmError.kNoError
    swap
    · simp [captureStagesImpl, captureStageList, runStages, h1, h2, h3, h4, h5,
        h6, hcopy, he6]
    subst he6
    rcases h7 : c.gainControlPC b6 with ⟨e7, b7⟩
    by_cases he7 : e7 = ApmError.kNoError
    · subst he7
      simp [captureStagesImpl, captureStageList, runStages, h1, h2, h3, h4, h5,
        h6, h7, hcopy]
    · simp [captureStagesImpl, captureStageList, runStages, h1, h2, h3, h4, h5,
        h6, h7, hcopy, he7]
  · rcases h4 : c.noiseSuppressionPC b3 with ⟨e4, b4⟩
    by_cases he4 : e4 = ApmError.kNoError
    swap
    · simp [captureStagesImpl, captureStageList, runStages, h1, h2, h3, h4,
        hcopy, he4]
    subst he4
    rcases h5 : c.echoControlMobilePC b4 with ⟨e5, b5⟩
    by_cases he5 : e5 = ApmError.kNoError
    swap
    · simp [captureStagesImpl, captureStageList, runStages, h1, h2, h3, h4, h5,
        hcopy, he5]
    subst he5
    rcases h6 : c.voiceDetectionPC b5 with ⟨e6, b6⟩
    by_cases he6 : e6 = ApmError.kNoError
    swap
    · simp [captureStagesImpl, captureStageList, runStages, h1, h2, h3, h4, h5,
        h6, hcopy, he6]
    subst he6
    rcases h7 : c.gainControlPC b6 with ⟨e7, b7⟩
    by_cases he7 : e7 = ApmError.kNoError
    · subst he7
      simp [captureStagesImpl, captureStageList, runStages, h1, h2, h3, h4, h5,
        h6, h7, hcopy]
    · simp [captureStagesImpl, captureStageList, runStages, h1, h2, h3, h4, h5,
        h6, h7, hcopy, he7]

/-- The five entries of one stream event record: the 1-byte event tag,
the frame's frequency, channel count, payload length and interleaved
payload. -/
def eventRecordEntries (tag : Nat) (fr : AudioFrame) : List TraceEntry :=
  [.u8 tag, .u32 fr.frequencyInHz, .channelCount fr.audioChannel,
   .payloadLength fr.payloadDataLengthInSamples, .samples fr.payloadData]

theorem writeEventRecord_all_ok (tag : Nat) (fr : AudioFrame) (df : DebugFile)
    (h : df.isOpen = true) :
    writeEventRecord tag fr true true true true true df =
      (true, { df with contents := df.contents ++ eventRecordEntries tag fr }) := by
  simp [writeEventRecord, dfWrite, h, eventRecordEntries]

theorem writeEventRecord_fail (tag : Nat) (fr : AudioFrame) (df : DebugFile)
    (h : df.isOpen = true) (w1 w2 w3 w4 w5 : Bool)
    (hw : (w1 && w2 && w3 && w4 && w5) = false) :
    (writeEventRecord tag fr w1 w2 w3 w4 w5 df).1 = false := by
  cases w1 <;> cases w2 <;> cases w3 <;> cases w4 <;> cases w5 <;>
    simp_all [writeEventRecord, dfWrite]

/-- C7: while the trace file is open, a `ProcessStream` or
`AnalyzeReverseStream` call that passes frame validation appends exactly
one event record — tag 2 for capture, tag 1 for render, followed by the
frame's frequency, channel count, payload length and full interleaved
payload — and does so before any audio transformation: when any of the
five writes fails the call returns `kFileError` with the stream buffers,
the frame and the execution trace untouched. -/
theorem debugRecord_spec {β : Type} (c : Components β) (ops : BufferOps β)
    (w1 w2 w3 w4 w5 : Bool) (s : Engine β) (fr : AudioFrame)
    (hopen : s.debug_file.isOpen = true) :
    (fr.frequencyInHz = toUWord32 s.sample_rate_hz →
     fr.audioChannel = s.num_capture_input_channels →
     fr.payloadDataLengthInSamples = s.samples_per_channel →
      (((w1 && w2 && w3 && w4 && w5) = true →
        (ProcessStream c ops w1 w2 w3 w4 w5 s (some fr)).2.1.debug_file.contents =
          s.debug_file.contents ++ eventRecordEntries 2 fr) ∧
       ((w1 && w2 && w3 && w4 && w5) = false →
        ProcessStream c ops w1 w2 w3 w4 w5 s (some fr) =
          (.kFileError,
           { s with debug_file :=
               (writeEventRecord 2 fr w1 w2 w3 w4 w5 s.debug_file).2 },
           some fr, [])))) ∧
    (fr.frequencyInHz = toUWord32 s.sample_rate_hz →
     fr.audioChannel = s.num_render_input_channels →
     fr.payloadDataLengthInSamples = s.samples_per_channel →
      (((w1 && w2 && w3 && w4 && w5) = true →
        (AnalyzeReverseStream c ops w1 w2 w3 w4 w5 s (some fr)).2.1.debug_file.contents =
          s.debug_file.contents ++ eventRecordEntries 1 fr) ∧
       ((w1 && w2 && w3 && w4 && w5) = false →
        AnalyzeReverseStream c ops w1 w2 w3 w4 w5 s (some fr) =
          (.kFileError,
           { s with debug_file :=
               (writeEventRecord 1 fr w1 w2 w3 w4 w5 s.debug_file).2 },
           some fr, [])))) := by
  constructor
  · intro hf hc hl
    constructor
    · intro hw
      have hws : w1 = true ∧ w2 = true ∧ w3 = true ∧ w4 = true ∧ w5 = true := by
        simpa [Bool.and_eq_true, and_assoc] using hw
      obtain ⟨hq1, hq2, hq3, hq4, hq5⟩ := hws
      subst hq1; subst hq2; subst hq3; subst hq4; subst hq5
      rw [ProcessStream, if_neg (by simp [hf]), if_neg (by simp [hc]),
        if_neg (by simp [hl]), writeEventRecord_all_ok 2 fr s.debug_file hopen]
      dsimp only
      repeat' split
      all_goals rfl
    · intro hw
      have hfail := writeEventRecord_fail 2 fr s.debug_file hopen w1 w2 w3 w4 w5 hw
      rw [ProcessStream, if_neg (by simp [hf]), if_neg (by simp [hc]),
        if_neg (by simp [hl])]
      rcases hrec : writeEventRecord 2 fr w1 w2 w3 w4 w5 s.debug_file with ⟨ok, df⟩
      rw [hrec] at hfail
      cases ok
      · rfl
      · exact absurd hfail (by simp)
  · intro hf hc hl
    constructor
    · intro hw
      have hws : w1 = true ∧ w2 = true ∧ w3 = true ∧ w4 = true ∧ w5 = true := by
        simpa [Bool.and_eq_true, and_assoc] using hw
      obtain ⟨hq1, hq2, hq3, hq4, hq5⟩ := hws
      subst hq1; subst hq2; subst hq3; subst hq4; subst hq5
      rw [AnalyzeReverseStream, if_neg (by simp [hf]), if_neg (by simp [hc]),
        if_neg (by simp [hl]), writeEventRecord_all_ok 1 fr s.debug_file hopen]
      dsimp only
      repeat' split
      all_goals rfl
    · intro hw
      have hfail := writeEventRecord_fail 1 fr s.debug_file hopen w1 w2 w3 w4 w5 hw
      rw [AnalyzeReverseStream, if_neg (by simp [hf]), if_neg (by simp [hc]),
        if_neg (by simp [hl])]
      rcases hrec : writeEventRecord 1 fr w1 w2 w3 w4 w5 s.debug_file with ⟨ok, df⟩
      rw [hrec] at hfail
      cases ok
      · rfl
      · exact absurd hfail (by simp)

/-- The constructor state with an open, empty trace file. -/
def sOpen : Engine Unit :=
  { e0 with debug_file := { isOpen := true, contents := [] } }

/-- Witness for C7: with the trace open on the constructor state, a valid
capture frame's `ProcessStream` call appends exactly the tag-2 event
record. -/
theorem debugRecord_spec_witness :
    (ProcessStream okComponents unitOps true true true true true sOpen
      (some fr0)).2.1.debug_file.contents = [] ++ eventRecordEntries 2 fr0 := by
  have h := debugRecord_spec okComponents unitOps true true true true true
    sOpen fr0 rfl
  exact (h.1 (by decide) rfl rfl).1 rfl

/-- C8: `StartDebugRecording` with a null filename returns
`kNullPointerError`; with a filename it succeeds exactly when closing an
already-open trace, opening the new file, writing the magic line and the
two Initialize-record writes all succeed; any file-operation failure
yields `kFileError`; and on success the trace file holds exactly the
literal magic line `#!vqetrace1.2` with a newline, the Initialize tag
byte 0, and the current `sample_rate_hz`. -/
theorem startDebugRecording_spec {β : Type} (s : Engine β) (name : String)
    (closeOk openOk textOk w1 w2 : Bool) :
    (StartDebugRecording (none : Option String) closeOk openOk textOk w1 w2 s =
      (.kNullPointerError, s)) ∧
    (((StartDebugRecording (some name) closeOk openOk textOk w1 w2 s).1 =
        .kNoError) ↔
      ((s.debug_file.isOpen = true → closeOk = true) ∧ openOk = true ∧
        textOk = true ∧ w1 = true ∧ w2 = true)) ∧
    ((StartDebugRecording (some name) closeOk openOk textOk w1 w2 s).1 ≠
        .kNoError →
      (StartDebugRecording (some name) closeOk openOk textOk w1 w2 s).1 =
        .kFileError) ∧
    ((StartDebugRecording (some name) closeOk openOk textOk w1 w2 s).1 =
        .kNoError →
      StartDebugRecording (some name) closeOk openOk textOk w1 w2 s =
        (.kNoError,
         { s with debug_file :=
             { isOpen := true
               contents := [.text (kMagicNumber ++ "\n"), .u8 0,
                            .i32 s.sample_rate_hz] } })) := by
  cases hO : s.debug_file.isOpen <;> cases closeOk <;> cases openOk <;>
    cases textOk <;> cases w1 <;> cases w2 <;>
      simp_all [StartDebugRecording, dfWrite]

/-- Witness for C8 on the constructor state with every file operation
succeeding. -/
theorem startDebugRecording_spec_witness :
    StartDebugRecording (some "trace.bin") true true true true true e0 =
      (ApmError.kNoError,
       { e0 with debug_file :=
           { isOpen := true
             contents := [.text (kMagicNumber ++ "\n"), .u8 0, .i32 16000] } }) := by
  have h := startDebugRecording_spec e0 "trace.bin" true true true true true
  exact h.2.2.2 (by decide)

/-- C9's counterexample: `set_stream_delay_ms` and `Version` do not open
with the critical-section guard, so not every public operation executes
under the per-instance lock. -/
theorem lockTable_cex :
    acquiresCrit PublicOp.setStreamDelayMs = false ∧
    acquiresCrit PublicOp.version = false := by
  decide

/-- C9 (corrected): the operations that acquire the per-instance critical
section are exactly `Initialize`, the three configuration setters, the
two stream calls, the two debug-recording calls and `ChangeUniqueId`;
`set_stream_delay_ms`, the getters, the component accessors and `Version`
run without it. -/
theorem lockTable_amended (op : PublicOp) :
    acquiresCrit op = true ↔
      (op = .initializeOp ∨ op = .setSampleRateHz ∨ op = .setNumReverseChannels ∨
       op = .setNumChannels ∨ op = .processStream ∨
       op = .analyzeReverseStream ∨ op = .startDebugRecording ∨
       op = .stopDebugRecording ∨ op = .changeUniqueId) := by
  cases op <;> simp [acquiresCrit]

/-- C10: `Version` zeroes `bytes_remaining` bytes of the buffer at
`position` before any capacity check, so when the capacity cannot even
hold the engine version string it returns `kBadParameterError` with the
caller's buffer already overwritten by zeros over that whole range — the
call is not mutation-free on error. -/
theorem versionZeroing_spec (buf : Nat → Nat) (bytes_remaining position : Nat)
    (componentVersions : List (ApmError ⊕ String))
    (h : bytes_remaining < myVersionStr.length) :
    Version (some buf) bytes_remaining position componentVersions =
      (.kBadParameterError, some (memsetZero buf position bytes_remaining),
       bytes_remaining, position) ∧
    (∀ i : Nat, position ≤ i → i < position + bytes_remaining →
      memsetZero buf position bytes_remaining i = 0) := by
  constructor
  · rw [Version, if_pos h]
  · intro i h1 h2
    rw [memsetZero, if_pos ⟨h1, h2⟩]

/-- Witness for C10: a buffer holding 7 everywhere, 5 bytes of capacity
at position 2: the call fails with `kBadParameterError` yet byte 3 has
been zeroed. -/
theorem versionZeroing_spec_witness :
    (Version (some (fun _ => 7)) 5 2 []).1 = ApmError.kBadParameterError ∧
    (Version (some (fun _ => 7)) 5 2 []).2.1 =
      some (memsetZero (fun _ => 7) 2 5) ∧
    memsetZero (fun _ => 7) 2 5 3 = 0 := by
  have h := versionZeroing_spec (fun _ => 7) 5 2 [] (by decide)
  exact ⟨by rw [h.1], by rw [h.1], h.2 3 (by decide) (by decide)⟩

end WebrtcApm
